import Mathlib

/-!
Shallow embedding of `src/catkin_tools/resultspace.py` (catkin_tools).

The module resolves the environment produced by sourcing a catkin result
space, caches the result keyed by path, and fingerprints the environment
hook files to detect staleness.  The embedding models the file system,
the process environment, the `which` result computed at import time, and
the behaviour of the external process executor as an explicit `World`
record; the two module-level cache dictionaries become an explicit
`Cache` record threaded through the function.  `hashlib.md5(.).hexdigest()`
is an external library function and is passed in as a parameter `md5hex`.
-/

namespace CatkinTools

/-- Split a character list at every occurrence of `c` (auxiliary). -/
def splitOnCharAux (c : Char) : List Char → List Char → List (List Char)
  | [], acc => [acc.reverse]
  | x :: xs, acc =>
    if x == c then acc.reverse :: splitOnCharAux c xs []
    else splitOnCharAux c xs (x :: acc)

/-- Split a string at every occurrence of the character `c` (the uses of
str.split in the modelled pipeline all have one-character separators). -/
def splitOnChar (c : Char) (s : String) : List String :=
  (splitOnCharAux c s.data []).map String.mk

/-- Join strings with a separator (str.join). -/
def joinWith (sep : String) : List String → String
  | [] => ""
  | [x] => x
  | x :: xs => x ++ sep ++ joinWith sep xs

/-- `os.path.join a b` for a relative second component `b`. -/
def pjoin (a b : String) : String := a ++ "/" ++ b

/-- The tail component of `os.path.split`: the part after the last slash. -/
def basename (s : String) : String :=
  ((splitOnChar '/' s).getLast?).getD s

/-- Universal-newline translation performed by Python text-mode
`open(path).read()`: CRLF and lone CR both become LF.  For UTF-8 file
contents, decoding and then re-encoding with .encode(utf-8) is otherwise
the identity at byte level, so line 65 of the source maps the raw file
bytes through exactly this function before hashing. -/
def universalNewlines : List Nat → List Nat
  | [] => []
  | 13 :: 10 :: rest => 10 :: universalNewlines rest
  | 13 :: rest => 10 :: universalNewlines rest
  | b :: rest => b :: universalNewlines rest

/-- An environment mapping (Python dict of str to str), in insertion order
with unique keys. -/
abbrev EnvMap := List (String × String)

/-- Python dict assignment `m[k] = v`: overwrite in place if the key is
present, else append. -/
def dictSet {α : Type} (m : List (String × α)) (k : String) (v : α) :
    List (String × α) :=
  if m.any (fun p => p.1 == k) then
    m.map (fun p => if p.1 == k then (k, v) else p)
  else m ++ [(k, v)]

/-- Modelled from the spec: `parse_env_str` (imported from `.common`, whose
source is not under src/) is the external environment-string parser that
turns KEY=VALUE style output, one variable per line, into a mapping. -/
def parse_env_str (s : String) : EnvMap :=
  (splitOnChar '\n' s).foldl
    (fun m line =>
      match splitOnChar '=' line with
      | [] => m
      | [_] => m
      | k :: rest => dictSet m k (joinWith "=" rest))
    []

/-- One value yielded by the external `execute_process` generator: a bytes
chunk, a str chunk, or some other object (e.g. the return code), which the
loop at lines 145-149 skips via the isinstance check. -/
inductive Chunk
  | bytes (bs : List Nat)
  | str (s : String)
  | other
  deriving DecidableEq

/-- Decoding of a bytes chunk (`ret.decode()`, line 147).  The model covers
single-byte text, which is all the executed commands emit. -/
def asciiDecode (bs : List Nat) : String := String.mk (bs.map Char.ofNat)

/-- Lines 146-149: bytes chunks are decoded, str chunks kept, anything else
contributes nothing to the accumulated output. -/
def chunkText : Chunk → String
  | .bytes bs => asciiDecode bs
  | .str s => s
  | .other => ""

/-- Behaviour of the external `execute_process` collaborator for the one
command this module runs: either it yields a list of chunks and finishes,
or it raises IOError after yielding some chunks. -/
inductive SubprocBehavior
  | ok (chunks : List Chunk)
  | ioError (chunksBefore : List Chunk) (msg : String)
  deriving DecidableEq

/-- The ambient state the Python function reads: the file system (existing
directories, regular files with raw byte contents, directory listings),
`os.environ.get("SHELL")`, the import-time `CATKIN_EXEC = which("catkin")`,
and the behaviour of the process executor. -/
structure World where
  dirs : List String
  files : List (String × List Nat)
  listing : List (String × List String)
  shellVar : Option String
  catkinExec : Option String
  subproc : SubprocBehavior
  deriving DecidableEq

/-- `os.path.exists`. -/
def World.pathExists (w : World) (p : String) : Bool :=
  w.dirs.contains p || (w.files.map Prod.fst).contains p

/-- `os.path.isdir`. -/
def World.isdir (w : World) (p : String) : Bool := w.dirs.contains p

/-- `os.path.isfile`. -/
def World.isfile (w : World) (p : String) : Bool :=
  (w.files.map Prod.fst).contains p

/-- Raw byte contents of a regular file. -/
def World.readFile (w : World) (p : String) : List Nat :=
  (List.lookup p w.files).getD []

/-- `os.listdir`. -/
def World.listdir (w : World) (p : String) : List String :=
  (List.lookup p w.listing).getD []

/-- Line 36: `DEFAULT_SHELL = "/bin/bash"`. -/
def DEFAULT_SHELL : String := "/bin/bash"

/-- Line 139: the keys never copied out of the sourced environment. -/
def blacklisted_keys : List String := ["_", "PWD"]

/-- Line 128: the per-shell no-rc flags. -/
def norc_flags : List (String × String) := [("bash", "--norc"), ("zsh", "-f")]

/-- `shlex.quote` (stdlib `cmd_quote`, line 25): a nonempty word of safe
characters is returned unchanged, anything else is wrapped in single
quotes with embedded single quotes escaped. -/
def shlexSafeChar (ch : Char) : Bool :=
  ch.isAlphanum || ch == '_' || ch == '@' || ch == '%' || ch == '+' ||
    ch == '=' || ch == ':' || ch == ',' || ch == '.' || ch == '/' || ch == '-'

/-- The single-quote character. -/
def squote : Char := Char.ofNat 39

def cmd_quote (s : String) : String :=
  if s ≠ "" && s.data.all shlexSafeChar then s
  else
    "\x27" ++
      String.mk (s.data.foldr
        (fun ch acc =>
          if ch == squote then
            squote :: '"' :: squote :: '"' :: squote :: acc
          else ch :: acc) []) ++
      "\x27"

/-- The two module-level cache dictionaries (lines 39-40):
`_resultspace_env_cache` and `_resultspace_env_hooks_cache`. -/
structure Cache where
  envCache : List (String × EnvMap)
  hooksCache : List (String × List String)
  deriving DecidableEq

/-- The exceptions the function can raise. -/
inductive PyError
  | ioError (msg : String)
  | runtimeError (msg : String)
  | nameError (nm : String)
  deriving DecidableEq

/-- Normal return of an environment dict, or a raised exception. -/
inductive PyResult
  | ok (env : EnvMap)
  | raise (e : PyError)
  deriving DecidableEq

/-- Observable outcome of one call: the result, the module caches after
the call, the commands passed to `execute_process` (empty list means no
subprocess was invoked), and the warnings printed. -/
structure Output where
  result : PyResult
  cache : Cache
  commands : List (List String)
  warnings : List String
  deriving DecidableEq

/-- Lines 80-83. -/
def notADirectoryMsg (p : String) : String :=
  "Cannot load environment from resultspace \"" ++ p ++
    "\" because it does not exist."

/-- Lines 90-94. -/
def missingMarkerMsg (p : String) : String :=
  "Cannot load environment from resultspace \"" ++ p ++
    "\" because it does not appear to be a catkin-generated resultspace " ++
    "(missing .catkin marker file)."

/-- Lines 101-105. -/
def shellNotFoundMsg (sp : String) : String :=
  "Cannot determine shell executable. " ++
    "The \x27SHELL\x27 environment variable is not set and " ++
    "the default \x27" ++ sp ++ "\x27 does not exist."

/-- Lines 117-120. -/
def missingSetupMsg (p sf : String) : String :=
  "Cannot load environment from resultspace \"" ++ p ++
    "\" because the required setup file \"" ++ sf ++ "\" does not exist."

/-- Line 124. -/
def toolWarning : String :=
  "WARNING: Failed to find \x27catkin\x27 executable. How are you running this?"

/-- Lines 164-165. -/
def emptyEnvWarning (sf : String) : String :=
  "WARNING: Sourced environment from `" ++ sf ++
    "` has no environment variables. Something is wrong."

/-- Line 62: `env_hooks_path = os.path.join(result_space_path, "etc",
"catkin", "profile.d")`. -/
def hooksDirPath (result_space_path : String) : String :=
  pjoin (pjoin (pjoin result_space_path "etc") "catkin") "profile.d"

/-- Lines 60-68: the MD5 fingerprints of the current env hooks — one hex
digest per entry of the hook directory listing, hashing the file contents
as read in text mode and re-encoded as UTF-8; empty when the hook
directory does not exist. -/
def computeEnvHooks (md5hex : List Nat → String) (w : World)
    (result_space_path : String) : List String :=
  if w.pathExists (hooksDirPath result_space_path) then
    (w.listdir (hooksDirPath result_space_path)).map
      (fun p =>
        md5hex (universalNewlines
          (w.readFile (pjoin (hooksDirPath result_space_path) p))))
  else []

/-- Lines 70-74: the cache-hit condition — `cached` was requested, the env
cache holds the path, and the fresh fingerprints equal the stored ones
(`.get(path, [])` defaults to the empty list when no fingerprints were
stored). -/
def cacheHit (md5hex : List Nat → String) (w : World)
    (result_space_path : String) (cached : Bool) (c : Cache) : Bool :=
  cached && (List.lookup result_space_path c.envCache).isSome &&
    (computeEnvHooks md5hex w result_space_path ==
      (List.lookup result_space_path c.hooksCache).getD [])

/-- Line 139 and the comprehension filter of lines 152-156: a binding is
kept iff its key is not blacklisted. -/
def notBlacklisted (kv : String × String) : Bool :=
  !(blacklisted_keys.contains kv.1)

/-- Lines 144-149: concatenate the yielded chunks into one text blob. -/
def subprocLines (chunks : List Chunk) : String :=
  chunks.foldl (fun acc ch => acc ++ chunkText ch) ""

/-- Lines 96-105: determine the shell used to source the setup file.
`SHELL` from the environment wins unchecked; only when it is unset is the
default used, and only then is its existence checked — `none` here means
the RuntimeError of lines 101-105 is raised. -/
def resolveShell (w : World) : Option String :=
  match w.shellVar with
  | some sp => some sp
  | none => if w.isfile DEFAULT_SHELL then some DEFAULT_SHELL else none

/-- Lines 144-156 as a standalone value: the parsed, blacklist-filtered
environment that a completed subprocess run yields (empty when execution
raises, since the comprehension at line 152 is then never reached). -/
def filteredEnv (w : World) : EnvMap :=
  match w.subproc with
  | .ok chunks => (parse_env_str (subprocLines chunks)).filter notBlacklisted
  | .ioError _ _ => []

/-- Lines 43-172: `get_resultspace_environment`.  `base_env` is the
environment handed to the subprocess; the executor's behaviour is a field
of `w`, so `base_env` does not further influence the modelled outcome. -/
def get_resultspace_environment (md5hex : List Nat → String) (w : World)
    (c : Cache) (result_space_path : String) (base_env : EnvMap)
    (quiet cached strict : Bool) : Output :=
  -- Lines 60-68: fingerprint the env hooks.
  let env_hooks := computeEnvHooks md5hex w result_space_path
  -- Lines 70-74: check the cache first, if desired.
  if cacheHit md5hex w result_space_path cached c then
    { result := .ok ((List.lookup result_space_path c.envCache).getD []),
      cache := c, commands := [], warnings := [] }
  -- Lines 76-83: result_space_path must be an existing directory.
  else if !(w.isdir result_space_path) then
    if quiet then
      { result := .ok [], cache := c, commands := [], warnings := [] }
    else
      { result := .raise (.ioError (notADirectoryMsg result_space_path)),
        cache := c, commands := [], warnings := [] }
  -- Lines 85-94: with strict, the .catkin marker must exist.
  else if strict && !(w.pathExists (pjoin result_space_path ".catkin")) then
    if quiet then
      { result := .ok [], cache := c, commands := [], warnings := [] }
    else
      { result := .raise (.ioError (missingMarkerMsg result_space_path)),
        cache := c, commands := [], warnings := [] }
  else
    -- Lines 96-105: determine the shell; only when SHELL is unset is the
    -- default checked for existence, and that failure is always fatal.
    match resolveShell w with
    | none =>
      { result := .raise (.runtimeError (shellNotFoundMsg DEFAULT_SHELL)),
        cache := c, commands := [], warnings := [] }
    | some shell_path =>
      -- Lines 106-110: shell family from the base name, fallback to bash.
      let shell_name0 := basename shell_path
      let shell_name :=
        if shell_name0 == "bash" || shell_name0 == "zsh" then shell_name0
        else "bash"
      -- Lines 112-120: the env.sh setup file must exist.
      let setup_file_path := pjoin result_space_path "env.sh"
      if !(w.pathExists setup_file_path) then
        if quiet then
          { result := .ok [], cache := c, commands := [], warnings := [] }
        else
          { result := .raise
              (.ioError (missingSetupMsg result_space_path setup_file_path)),
            cache := c, commands := [], warnings := [] }
      else
        -- Lines 122-125: CATKIN_EXEC resolution failure warns and returns
        -- an empty dict, quiet or not.
        match w.catkinExec with
        | none =>
          { result := .ok [], cache := c, commands := [],
            warnings := [toolWarning] }
        | some catkin_exec =>
          -- Lines 127-136: build the sourcing command.
          let subcommand :=
            cmd_quote setup_file_path ++ " " ++ catkin_exec ++ " env -q"
          let command :=
            [shell_path, (List.lookup shell_name norc_flags).getD "",
             "-c", subcommand]
          -- Lines 142-172: run the command, parse and filter the output.
          match w.subproc with
          | .ok chunks =>
            let lines := subprocLines chunks
            let env_dict := (parse_env_str lines).filter notBlacklisted
            if env_dict.length > 0 then
              -- Lines 159-162: cache the result (unconditionally).
              { result := .ok env_dict,
                cache :=
                  { envCache := dictSet c.envCache result_space_path env_dict,
                    hooksCache :=
                      dictSet c.hooksCache result_space_path env_hooks },
                commands := [command], warnings := [] }
            else
              -- Lines 163-165: empty environment is warned about, not cached.
              { result := .ok env_dict, cache := c, commands := [command],
                warnings := [emptyEnvWarning setup_file_path] }
          | .ioError _ _ =>
            -- Lines 167-170: the handler prints to `sys.stderr`, but the
            -- module never imports `sys`, so evaluating the name raises
            -- NameError out of the function before anything is printed.
            { result := .raise (.nameError "sys"), cache := c,
              commands := [command], warnings := [] }

/-- Lines 175-185: `load_resultspace_environment` — resolve with the
default arguments (`base_env={}`, `quiet=False`, `strict=True`) and merge
the result into `os.environ`; a raised exception propagates. -/
def load_resultspace_environment (md5hex : List Nat → String) (w : World)
    (c : Cache) (osEnviron : EnvMap) (result_space_path : String)
    (cached : Bool) : Output × EnvMap :=
  let o := get_resultspace_environment md5hex w c result_space_path []
    false cached true
  match o.result with
  | .ok env => (o, env.foldl (fun e kv => dictSet e kv.1 kv.2) osEnviron)
  | .raise _ => (o, osEnviron)

/-!
### Heap-accurate rendering

Python dicts are heap objects: line 161 stores the dict **object** produced
by the comprehension at line 152 into the module cache, while lines 74 and
172 hand the caller `dict(...)`, a fresh copy.  To reason about aliasing
between the caller's map and the cache, the same function is rendered once
more with the dict values living in an explicit heap; every `dict(...)`
and every dict display allocates a fresh cell.  All branch conditions and
computed values are exactly those of `get_resultspace_environment` above.
-/

/-- Module state for the heap rendering: the heap of dict objects, the env
cache holding references into the heap, and the fingerprint cache. -/
structure HState where
  heap : List EnvMap
  envCacheR : List (String × Nat)
  hooksCache : List (String × List String)
  deriving DecidableEq

/-- Allocate a fresh dict object, returning the new state and reference. -/
def HState.alloc (s : HState) (v : EnvMap) : HState × Nat :=
  ({ s with heap := s.heap ++ [v] }, s.heap.length)

/-- Read the dict object a reference points to. -/
def HState.deref (s : HState) (r : Nat) : EnvMap := s.heap.getD r []

/-- Overwrite the dict object at reference `r` — the caller mutating a map
it was handed. -/
def mutateRef (s : HState) (r : Nat) (v : EnvMap) : HState :=
  { s with heap := s.heap.set r v }

inductive HResult
  | ok (r : Nat)
  | raise (e : PyError)
  deriving DecidableEq

structure HOutput where
  result : HResult
  state : HState
  commands : List (List String)
  warnings : List String
  deriving DecidableEq

/-- Lines 70-74 for the heap rendering (same condition as `cacheHit`). -/
def cacheHitRefs (md5hex : List Nat → String) (w : World)
    (result_space_path : String) (cached : Bool) (s : HState) : Bool :=
  cached && (List.lookup result_space_path s.envCacheR).isSome &&
    (computeEnvHooks md5hex w result_space_path ==
      (List.lookup result_space_path s.hooksCache).getD [])

/-- Lines 43-172 again, with dict identity tracked: `dict(...)` at lines
74 and 172 allocates a copy, the comprehension at line 152 allocates the
object that line 161 then stores (uncopied) in the cache. -/
def get_resultspace_environment_refs (md5hex : List Nat → String) (w : World)
    (s : HState) (result_space_path : String) (base_env : EnvMap)
    (quiet cached strict : Bool) : HOutput :=
  let env_hooks := computeEnvHooks md5hex w result_space_path
  if cacheHitRefs md5hex w result_space_path cached s then
    -- Line 74: return dict(_resultspace_env_cache[result_space_path])
    let v := s.deref ((List.lookup result_space_path s.envCacheR).getD 0)
    let s1 := (s.alloc v).1
    { result := .ok (s.alloc v).2, state := s1, commands := [], warnings := [] }
  else if !(w.isdir result_space_path) then
    if quiet then
      { result := .ok (s.alloc []).2, state := (s.alloc []).1,
        commands := [], warnings := [] }
    else
      { result := .raise (.ioError (notADirectoryMsg result_space_path)),
        state := s, commands := [], warnings := [] }
  else if strict && !(w.pathExists (pjoin result_space_path ".catkin")) then
    if quiet then
      { result := .ok (s.alloc []).2, state := (s.alloc []).1,
        commands := [], warnings := [] }
    else
      { result := .raise (.ioError (missingMarkerMsg result_space_path)),
        state := s, commands := [], warnings := [] }
  else
    match resolveShell w with
    | none =>
      { result := .raise (.runtimeError (shellNotFoundMsg DEFAULT_SHELL)),
        state := s, commands := [], warnings := [] }
    | some shell_path =>
      let shell_name0 := basename shell_path
      let shell_name :=
        if shell_name0 == "bash" || shell_name0 == "zsh" then shell_name0
        else "bash"
      let setup_file_path := pjoin result_space_path "env.sh"
      if !(w.pathExists setup_file_path) then
        if quiet then
          { result := .ok (s.alloc []).2, state := (s.alloc []).1,
            commands := [], warnings := [] }
        else
          { result := .raise
              (.ioError (missingSetupMsg result_space_path setup_file_path)),
            state := s, commands := [], warnings := [] }
      else
        match w.catkinExec with
        | none =>
          { result := .ok (s.alloc []).2, state := (s.alloc []).1,
            commands := [], warnings := [toolWarning] }
        | some catkin_exec =>
          let subcommand :=
            cmd_quote setup_file_path ++ " " ++ catkin_exec ++ " env -q"
          let command :=
            [shell_path, (List.lookup shell_name norc_flags).getD "",
             "-c", subcommand]
          -- Line 140: env_dict = {} allocates an (ultimately unused) dict.
          let s1 := (s.alloc []).1
          match w.subproc with
          | .ok chunks =>
            let lines := subprocLines chunks
            let env_dict := (parse_env_str lines).filter notBlacklisted
            -- Line 152: the comprehension allocates the result object.
            let s2 := (s1.alloc env_dict).1
            let r2 := (s1.alloc env_dict).2
            if env_dict.length > 0 then
              -- Line 161: the cache stores the object itself, no copy.
              let s3 : HState :=
                { s2 with
                    envCacheR := dictSet s2.envCacheR result_space_path r2,
                    hooksCache :=
                      dictSet s2.hooksCache result_space_path env_hooks }
              -- Line 172: return dict(env_dict) — a fresh copy.
              { result := .ok (s3.alloc (s3.deref r2)).2,
                state := (s3.alloc (s3.deref r2)).1,
                commands := [command], warnings := [] }
            else
              { result := .ok (s2.alloc (s2.deref r2)).2,
                state := (s2.alloc (s2.deref r2)).1,
                commands := [command],
                warnings := [emptyEnvWarning setup_file_path] }
          | .ioError _ _ =>
            { result := .raise (.nameError "sys"), state := s1,
              commands := [command], warnings := [] }

/-- The environment map a caller observes from a heap-rendering outcome:
the dereferenced returned dict, or nothing when an exception was raised. -/
def returnedEnv (o : HOutput) : Option EnvMap :=
  match o.result with
  | .ok r => some (o.state.deref r)
  | .raise _ => none

/-- Cache references are live heap objects. -/
def HWF (s : HState) : Prop :=
  ∀ p r, List.lookup p s.envCacheR = some r → r < s.heap.length

/-- No cached environment contains a blacklisted key.  This holds of the
empty initial cache and is preserved by every call (conjunct of C4). -/
def CacheClean (c : Cache) : Prop :=
  ∀ p env, List.lookup p c.envCache = some env →
    ∀ kv ∈ env, kv.1 ≠ "_" ∧ kv.1 ≠ "PWD"

/-!
### Concrete worlds used by witnesses and counterexamples
-/

/-- The hook directory of the result space `/rs`. -/
def hookDir : String := hooksDirPath "/rs"

/-- Empty module caches, the state at interpreter start. -/
def cache0 : Cache := ⟨[], []⟩

/-- A result space passing every validation, whose sourcing emits the
scenario output `FOO=bar\nBAZ=qux\n_=ignored\nPWD=/tmp\n`. -/
def wScenario : World :=
  { dirs := ["/rs"]
    files := [("/rs/.catkin", []), ("/rs/env.sh", [35])]
    listing := []
    shellVar := some "/bin/bash"
    catkinExec := some "/usr/bin/catkin"
    subproc := .ok [.str "FOO=bar\nBAZ=qux\n_=ignored\nPWD=/tmp\n"] }

/-- Same result space, but the sourcing emits only blacklisted keys, so
the filtered environment is empty. -/
def wBlacklistOnly : World :=
  { wScenario with subproc := .ok [.str "_=a\nPWD=/b\n"] }

/-- Same result space, but execution raises IOError mid-stream. -/
def wIOFail : World :=
  { wScenario with subproc := .ioError [] "broken pipe" }

/-- A result space with directory and marker present, `env.sh` missing,
`SHELL` unset and `/bin/bash` absent. -/
def wNoShell : World :=
  { dirs := ["/rs"]
    files := [("/rs/.catkin", [])]
    listing := []
    shellVar := none
    catkinExec := some "/usr/bin/catkin"
    subproc := .ok [] }

/-- The scenario world with one hook file whose raw content uses CRLF. -/
def wHookCRLF : World :=
  { wScenario with
      dirs := ["/rs", hookDir]
      listing := [(hookDir, ["10.sh"])]
      files := [("/rs/.catkin", []), ("/rs/env.sh", [35]),
                (pjoin hookDir "10.sh", [97, 13, 10, 98])] }

/-- The same world with the hook file content using LF instead: different
raw bytes, identical text-mode read. -/
def wHookLF : World :=
  { wHookCRLF with
      files := [("/rs/.catkin", []), ("/rs/env.sh", [35]),
                (pjoin hookDir "10.sh", [97, 10, 98])] }

/-- The same world with the hook file content actually changed. -/
def wHookChanged : World :=
  { wHookCRLF with
      files := [("/rs/.catkin", []), ("/rs/env.sh", [35]),
                (pjoin hookDir "10.sh", [99, 99])] }

/-- The same world with a second hook file added. -/
def wHookAdded : World :=
  { wHookCRLF with
      listing := [(hookDir, ["10.sh", "20.sh"])]
      files := [("/rs/.catkin", []), ("/rs/env.sh", [35]),
                (pjoin hookDir "10.sh", [97, 13, 10, 98]),
                (pjoin hookDir "20.sh", [100])] }

/-- The scenario world with the catkin executable unresolvable. -/
def wNoTool : World :=
  { wScenario with catkinExec := none }

/-- A world in which the result space has been deleted entirely. -/
def wGone : World :=
  { dirs := [], files := [], listing := [], shellVar := none,
    catkinExec := none, subproc := .ok [] }

/-- A cache state holding an entry for `/rs` with no hook fingerprints,
as produced by a resolution when the hook directory was absent. -/
def cacheSeeded : Cache := ⟨[("/rs", [("A", "1")])], [("/rs", [])]⟩

/-- A cache state as written by a successful resolution under
`wHookCRLF`: the stored fingerprint list is the text-mode digest of the
CRLF hook file. -/
def cacheHooksStored : Cache :=
  ⟨[("/rs", [("FOO", "bar")])], [("/rs", ["a\nb"])]⟩

/-- Heap-rendering initial state: empty heap and caches. -/
def hstate0 : HState := ⟨[], [], []⟩

/-- First call of the heap rendering on the scenario world. -/
def hOut1 : HOutput :=
  get_resultspace_environment_refs asciiDecode wScenario hstate0 "/rs" []
    false true true

/-!
### Association-list and list lemmas
-/

theorem lookup_eq_none_of_any_false {α : Type} (m : List (String × α)) (k : String)
    (h : m.any (fun p => p.1 == k) = false) : List.lookup k m = none := by
  induction m with
  | nil => rfl
  | cons a t ih =>
    obtain ⟨a1, a2⟩ := a
    simp only [List.any_cons, Bool.or_eq_false_iff, beq_eq_false_iff_ne] at h
    have hk : (k == a1) = false := by
      simp only [beq_eq_false_iff_ne]
      exact fun hkk => h.1 hkk.symm
    simp [List.lookup_cons, hk, ih (by simpa [beq_eq_false_iff_ne] using h.2)]

theorem lookup_append_none {α : Type} (m l : List (String × α)) (k : String)
    (h : List.lookup k m = none) : List.lookup k (m ++ l) = List.lookup k l := by
  induction m with
  | nil => rfl
  | cons a t ih =>
    obtain ⟨a1, a2⟩ := a
    simp only [List.lookup_cons] at h ⊢
    cases hk : (k == a1) with
    | true => simp [hk] at h
    | false =>
      simp only [List.cons_append, List.lookup_cons, hk]
      exact ih (by simpa [hk] using h)

theorem lookup_overwrite_self {α : Type} (m : List (String × α)) (k : String) (v : α)
    (h : m.any (fun p => p.1 == k) = true) :
    List.lookup k (m.map (fun p => if p.1 == k then (k, v) else p)) = some v := by
  induction m with
  | nil => simp at h
  | cons a t ih =>
    obtain ⟨a1, a2⟩ := a
    by_cases hk : a1 = k
    · subst hk; simp [List.lookup_cons]
    · have hk2 : (k == a1) = false := beq_eq_false_iff_ne.mpr (fun hkk => hk hkk.symm)
      have ht : t.any (fun p => p.1 == k) = true := by
        simpa [List.any_cons, hk] using h
      simpa [List.map_cons, hk, List.lookup_cons, hk2] using ih ht

theorem lookup_overwrite_ne {α : Type} (m : List (String × α)) (k k' : String) (v : α)
    (h : k' ≠ k) :
    List.lookup k' (m.map (fun p => if p.1 == k then (k, v) else p)) =
      List.lookup k' m := by
  induction m with
  | nil => rfl
  | cons a t ih =>
    obtain ⟨a1, a2⟩ := a
    by_cases hk : a1 = k
    · subst hk
      have hb : (k' == a1) = false := beq_eq_false_iff_ne.mpr h
      simpa [List.map_cons, List.lookup_cons, hb] using ih
    · by_cases hk2 : k' = a1
      · have hb : (k' == a1) = true := beq_iff_eq.mpr hk2
        simp [List.map_cons, hk, List.lookup_cons, hb]
      · have hb : (k' == a1) = false := beq_eq_false_iff_ne.mpr hk2
        simpa [List.map_cons, hk, List.lookup_cons, hb] using ih

theorem lookup_dictSet_self {α : Type} (m : List (String × α)) (k : String) (v : α) :
    List.lookup k (dictSet m k v) = some v := by
  unfold dictSet
  cases hany : m.any (fun p => p.1 == k) with
  | true => simpa [hany] using lookup_overwrite_self m k v hany
  | false =>
    simp only [hany, Bool.false_eq_true, if_false]
    rw [lookup_append_none _ _ _ (lookup_eq_none_of_any_false _ _ hany)]
    simp [List.lookup_cons]

theorem lookup_dictSet_ne {α : Type} (m : List (String × α)) (k k' : String) (v : α)
    (h : k' ≠ k) : List.lookup k' (dictSet m k v) = List.lookup k' m := by
  unfold dictSet
  cases hany : m.any (fun p => p.1 == k) with
  | true => simpa [hany] using lookup_overwrite_ne m k k' v h
  | false =>
    simp only [hany, Bool.false_eq_true, if_false]
    induction m with
    | nil =>
      have hk2 : (k' == k) = false := by simpa [beq_eq_false_iff_ne] using h
      simp [List.lookup_cons, hk2]
    | cons a t ih =>
      obtain ⟨a1, a2⟩ := a
      simp only [List.any_cons, Bool.or_eq_false_iff] at hany
      cases hk2 : (k' == a1) with
      | true => simp [List.cons_append, List.lookup_cons, hk2]
      | false => simpa [List.cons_append, List.lookup_cons, hk2] using ih hany.2

theorem lookup_dictSet_cases {α : Type} (m : List (String × α)) (k p : String)
    (v x : α) (h : List.lookup p (dictSet m k v) = some x) :
    (p = k ∧ x = v) ∨ List.lookup p m = some x := by
  by_cases hpk : p = k
  · subst hpk
    rw [lookup_dictSet_self] at h
    exact Or.inl ⟨rfl, (Option.some.inj h).symm⟩
  · right
    rwa [lookup_dictSet_ne _ _ _ _ hpk] at h

theorem filteredEnv_clean (w : World) (kv : String × String)
    (h : kv ∈ filteredEnv w) : kv.1 ≠ "_" ∧ kv.1 ≠ "PWD" := by
  unfold filteredEnv at h
  cases hs : w.subproc with
  | ok chunks =>
    rw [hs] at h
    have hmem := (List.mem_filter.mp h).2
    simp only [notBlacklisted, blacklisted_keys, Bool.not_eq_true] at hmem
    constructor <;> intro hk <;> simp [hk] at hmem
  | ioError a b => rw [hs] at h; cases h

theorem map_ne_of_mem_ne {α β : Type} {f g : α → β} {l : List α} {x : α}
    (hx : x ∈ l) (hfg : f x ≠ g x) : l.map f ≠ l.map g := by
  intro h
  exact hfg (List.map_eq_map_iff.mp h x hx)

theorem getD_concat_self (l : List EnvMap) (a : EnvMap) :
    (l ++ [a]).getD l.length [] = a := by
  simp [List.getD, List.getElem?_concat_length]

theorem getD_set_ne (l : List EnvMap) (i j : Nat) (v : EnvMap) (h : j ≠ i) :
    (l.set i v).getD j [] = l.getD j [] := by
  simp [List.getD, List.getElem?_set_ne (fun hh => h hh.symm)]

theorem getD_append_lt (l l' : List EnvMap) (j : Nat) (h : j < l.length) :
    (l ++ l').getD j [] = l.getD j [] := by
  simp [List.getD, List.getElem?_append_left h]


/-!
### Branch-characterization lemmas for `get_resultspace_environment`
-/

theorem call_of_cacheHit (md5hex : List Nat → String) (w : World) (c : Cache)
    (path : String) (base : EnvMap) (quiet cached strict : Bool)
    (h : cacheHit md5hex w path cached c = true) :
    get_resultspace_environment md5hex w c path base quiet cached strict =
      { result := .ok ((List.lookup path c.envCache).getD []), cache := c,
        commands := [], warnings := [] } := by
  simp [get_resultspace_environment, h]

theorem call_cases (md5hex : List Nat → String) (w : World) (c : Cache)
    (path : String) (base : EnvMap) (quiet cached strict : Bool) :
    (cacheHit md5hex w path cached c = true ∧
      get_resultspace_environment md5hex w c path base quiet cached strict =
        { result := .ok ((List.lookup path c.envCache).getD []), cache := c,
          commands := [], warnings := [] }) ∨
    ((get_resultspace_environment md5hex w c path base quiet cached strict).cache = c ∧
     (get_resultspace_environment md5hex w c path base quiet cached strict).commands = [] ∧
     ((get_resultspace_environment md5hex w c path base quiet cached strict).result = .ok [] ∨
      ∃ err, (get_resultspace_environment md5hex w c path base quiet cached strict).result = .raise err)) ∨
    ((get_resultspace_environment md5hex w c path base quiet cached strict).commands ≠ [] ∧
      ((filteredEnv w ≠ [] ∧
        (get_resultspace_environment md5hex w c path base quiet cached strict).result = .ok (filteredEnv w) ∧
        (get_resultspace_environment md5hex w c path base quiet cached strict).cache =
          { envCache := dictSet c.envCache path (filteredEnv w),
            hooksCache := dictSet c.hooksCache path (computeEnvHooks md5hex w path) }) ∨
       (filteredEnv w = [] ∧
        (get_resultspace_environment md5hex w c path base quiet cached strict).result = .ok [] ∧
        (get_resultspace_environment md5hex w c path base quiet cached strict).cache = c) ∨
       ((get_resultspace_environment md5hex w c path base quiet cached strict).result = .raise (.nameError "sys") ∧
        (get_resultspace_environment md5hex w c path base quiet cached strict).cache = c))) := by
  by_cases hhit : cacheHit md5hex w path cached c = true
  · exact Or.inl ⟨hhit, call_of_cacheHit md5hex w c path base quiet cached strict hhit⟩
  · have hmiss : cacheHit md5hex w path cached c = false := by simpa using hhit
    right
    cases hdir : w.isdir path with
    | false =>
      left
      cases quiet <;> simp [get_resultspace_environment, hmiss, hdir]
    | true =>
      by_cases hmark : (strict && !(w.pathExists (pjoin path ".catkin"))) = true
      · left
        cases quiet <;> simp [get_resultspace_environment, hmiss, hdir, hmark]
      · have hmark' : (strict && !(w.pathExists (pjoin path ".catkin"))) = false := by
          simpa using hmark
        have main : ∀ sp : String, resolveShell w = some sp →
            ((get_resultspace_environment md5hex w c path base quiet cached strict).cache = c ∧
             (get_resultspace_environment md5hex w c path base quiet cached strict).commands = [] ∧
             ((get_resultspace_environment md5hex w c path base quiet cached strict).result = .ok [] ∨
              ∃ err, (get_resultspace_environment md5hex w c path base quiet cached strict).result = .raise err)) ∨
            ((get_resultspace_environment md5hex w c path base quiet cached strict).commands ≠ [] ∧
              ((filteredEnv w ≠ [] ∧
                (get_resultspace_environment md5hex w c path base quiet cached strict).result = .ok (filteredEnv w) ∧
                (get_resultspace_environment md5hex w c path base quiet cached strict).cache =
                  { envCache := dictSet c.envCache path (filteredEnv w),
                    hooksCache := dictSet c.hooksCache path (computeEnvHooks md5hex w path) }) ∨
               (filteredEnv w = [] ∧
                (get_resultspace_environment md5hex w c path base quiet cached strict).result = .ok [] ∧
                (get_resultspace_environment md5hex w c path base quiet cached strict).cache = c) ∨
               ((get_resultspace_environment md5hex w c path base quiet cached strict).result = .raise (.nameError "sys") ∧
                (get_resultspace_environment md5hex w c path base quiet cached strict).cache = c))) := by
          intro sp hsp
          by_cases hsetup : w.pathExists (pjoin path "env.sh") = true
          · cases hexec : w.catkinExec with
            | none =>
              left
              simp [get_resultspace_environment, hmiss, hdir, hmark', hsp, hsetup, hexec]
            | some ce =>
              cases hsub : w.subproc with
              | ioError cb msg =>
                right
                refine ⟨?_, Or.inr (Or.inr ⟨?_, ?_⟩)⟩ <;>
                  simp [get_resultspace_environment, hmiss, hdir, hmark', hsp, hsetup, hexec, hsub]
              | ok chunks =>
                have heq : filteredEnv w = (parse_env_str (subprocLines chunks)).filter notBlacklisted := by
                  simp [filteredEnv, hsub]
                by_cases he : filteredEnv w = []
                · have hlen : (filteredEnv w).length = 0 := by rw [he]; rfl
                  refine Or.inr ⟨?_, Or.inr (Or.inl ⟨he, ?_, ?_⟩)⟩ <;>
                    simp [get_resultspace_environment, hmiss, hdir, hmark', hsp, hsetup, hexec, hsub, ← heq, hlen, he]
                · have hlen : 0 < (filteredEnv w).length := List.length_pos.mpr he
                  refine Or.inr ⟨?_, Or.inl ⟨he, ?_, ?_⟩⟩ <;>
                    simp [get_resultspace_environment, hmiss, hdir, hmark', hsp, hsetup, hexec, hsub, ← heq, hlen]
          · have hsetup' : w.pathExists (pjoin path "env.sh") = false := by simpa using hsetup
            left
            cases quiet <;> simp [get_resultspace_environment, hmiss, hdir, hmark', hsp, hsetup']
        cases hsv : w.shellVar with
        | some sp => exact main sp (by simp [resolveShell, hsv])
        | none =>
          cases hbash : w.isfile DEFAULT_SHELL with
          | true => exact main DEFAULT_SHELL (by simp [resolveShell, hsv, hbash])
          | false =>
            have hrs : resolveShell w = none := by simp [resolveShell, hsv, hbash]
            left
            refine ⟨?_, ?_, Or.inr ⟨.runtimeError (shellNotFoundMsg DEFAULT_SHELL), ?_⟩⟩ <;>
              simp [get_resultspace_environment, hmiss, hdir, hmark', hrs]

/-!
### Heap-rendering lemmas
-/

theorem alloc_deref (s : HState) (v : EnvMap) :
    (s.alloc v).1.deref (s.alloc v).2 = v := by
  simp [HState.alloc, HState.deref, getD_concat_self]

theorem deref_alloc_lt (s : HState) (v : EnvMap) (r : Nat) (h : r < s.heap.length) :
    (s.alloc v).1.deref r = s.deref r := by
  simp [HState.alloc, HState.deref, List.getD, List.getElem?_append_left h]

theorem deref_mutate_ne (s : HState) (r r' : Nat) (v : EnvMap) (h : r' ≠ r) :
    (mutateRef s r v).deref r' = s.deref r' := by
  simp [mutateRef, HState.deref, List.getD,
    List.getElem?_set_ne (fun hh => h hh.symm)]

theorem refs_cache_fresh (md5hex : List Nat → String) (w : World) (path : String)
    (base : EnvMap) (quiet cached strict : Bool) (s : HState) (hWF : HWF s) (r : Nat)
    (hok : (get_resultspace_environment_refs md5hex w s path base quiet cached strict).result = .ok r) :
    ∀ p ref, List.lookup p
      (get_resultspace_environment_refs md5hex w s path base quiet cached strict).state.envCacheR
      = some ref → ref < r := by
  intro p ref href
  by_cases hhit : cacheHitRefs md5hex w path cached s = true
  · simp only [get_resultspace_environment_refs, hhit, if_true, HState.alloc] at hok href
    have hr : r = s.heap.length := (HResult.ok.inj hok).symm
    exact hr ▸ hWF p ref href
  · have hmiss : cacheHitRefs md5hex w path cached s = false := by simpa using hhit
    cases hdir : w.isdir path with
    | false =>
      cases quiet with
      | true =>
        simp only [get_resultspace_environment_refs, hmiss, hdir, HState.alloc] at hok href
        simp at hok href
        have hr : r = s.heap.length := hok.symm
        exact hr ▸ hWF p ref href
      | false =>
        simp [get_resultspace_environment_refs, hmiss, hdir] at hok
    | true =>
      by_cases hmark : (strict && !(w.pathExists (pjoin path ".catkin"))) = true
      · cases quiet with
        | true =>
          simp only [get_resultspace_environment_refs, hmiss, hdir, hmark, HState.alloc] at hok href
          simp at hok href
          have hr : r = s.heap.length := hok.symm
          exact hr ▸ hWF p ref href
        | false =>
          simp [get_resultspace_environment_refs, hmiss, hdir, hmark] at hok
      · have hmark' : (strict && !(w.pathExists (pjoin path ".catkin"))) = false := by
          simpa using hmark
        cases hrs : resolveShell w with
        | none =>
          simp [get_resultspace_environment_refs, hmiss, hdir, hmark', hrs] at hok
        | some sp =>
          by_cases hsetup : w.pathExists (pjoin path "env.sh") = true
          · cases hexec : w.catkinExec with
            | none =>
              simp only [get_resultspace_environment_refs, hmiss, hdir, hmark', hrs, hsetup,
                hexec, HState.alloc] at hok href
              simp at hok href
              have hr : r = s.heap.length := hok.symm
              exact hr ▸ hWF p ref href
            | some ce =>
              cases hsub : w.subproc with
              | ioError cb msg =>
                simp [get_resultspace_environment_refs, hmiss, hdir, hmark', hrs, hsetup,
                  hexec, hsub] at hok
              | ok chunks =>
                by_cases hlen : 0 < ((parse_env_str (subprocLines chunks)).filter notBlacklisted).length
                · simp only [get_resultspace_environment_refs, hmiss, hdir, hmark', hrs, hsetup,
                    hexec, hsub, hlen, if_true, HState.alloc, List.length_append,
                    List.length_cons, List.length_nil] at hok href
                  simp at hok href
                  have hr : r = s.heap.length + 1 + 1 := hok.symm
                  rcases lookup_dictSet_cases _ _ _ _ _ href with ⟨-, hre⟩ | hold
                  · omega
                  · have := hWF p ref hold
                    omega
                · simp only [get_resultspace_environment_refs, hmiss, hdir, hmark', hrs, hsetup,
                    hexec, hsub, hlen, if_false, HState.alloc, List.length_append,
                    List.length_cons, List.length_nil] at hok href
                  simp [hlen] at hok href
                  have hr : r = s.heap.length + 1 + 1 := hok.symm
                  have := hWF p ref href
                  omega
          · have hsetup' : w.pathExists (pjoin path "env.sh") = false := by simpa using hsetup
            cases quiet with
            | true =>
              simp only [get_resultspace_environment_refs, hmiss, hdir, hmark', hrs, hsetup',
                HState.alloc] at hok href
              simp at hok href
              have hr : r = s.heap.length := hok.symm
              exact hr ▸ hWF p ref href
            | false =>
              simp [get_resultspace_environment_refs, hmiss, hdir, hmark', hrs, hsetup'] at hok

theorem getElem?_append_add (l l' : List EnvMap) (k : Nat) :
    (l ++ l')[l.length + k]? = l'[k]? := by
  simp [List.getElem?_append_right (Nat.le_add_right l.length k), Nat.add_sub_cancel_left]

theorem getD_append_add (l l' : List EnvMap) (k : Nat) :
    (l ++ l').getD (l.length + k) [] = l'.getD k [] := by
  simp [List.getD, getElem?_append_add]

theorem deref_cache_update (s : HState) (ec : List (String × Nat))
    (hc : List (String × List String)) (r : Nat) :
    ({ s with envCacheR := ec, hooksCache := hc } : HState).deref r = s.deref r := rfl

theorem returnedEnv_eq (md5hex : List Nat → String) (w : World) (s1 s2 : HState)
    (path : String) (base : EnvMap) (quiet cached strict : Bool)
    (henv : s1.envCacheR = s2.envCacheR) (hhooks : s1.hooksCache = s2.hooksCache)
    (hderef : ∀ ref, List.lookup path s1.envCacheR = some ref →
      s1.deref ref = s2.deref ref) :
    returnedEnv (get_resultspace_environment_refs md5hex w s1 path base quiet cached strict) =
    returnedEnv (get_resultspace_environment_refs md5hex w s2 path base quiet cached strict) := by
  have hhit2 : cacheHitRefs md5hex w path cached s2 = cacheHitRefs md5hex w path cached s1 := by
    simp [cacheHitRefs, henv, hhooks]
  by_cases hhit : cacheHitRefs md5hex w path cached s1 = true
  · have h' := hhit
    simp only [cacheHitRefs, Bool.and_eq_true] at h'
    obtain ⟨⟨-, hsome⟩, -⟩ := h'
    obtain ⟨cref, hcref⟩ := Option.isSome_iff_exists.mp hsome
    have hval : s1.deref ((List.lookup path s1.envCacheR).getD 0) =
        s2.deref ((List.lookup path s2.envCacheR).getD 0) := by
      rw [← henv, hcref]
      exact hderef cref hcref
    simp only [get_resultspace_environment_refs, hhit, hhit2, if_true, returnedEnv,
      alloc_deref]
    rw [hval]
  · have hm1 : cacheHitRefs md5hex w path cached s1 = false := by simpa using hhit
    have hm2 : cacheHitRefs md5hex w path cached s2 = false := by rw [hhit2]; exact hm1
    cases hdir : w.isdir path with
    | false =>
      cases quiet <;>
        simp [get_resultspace_environment_refs, hm1, hm2, hdir, returnedEnv, alloc_deref]
    | true =>
      by_cases hmark : (strict && !(w.pathExists (pjoin path ".catkin"))) = true
      · cases quiet <;>
          simp [get_resultspace_environment_refs, hm1, hm2, hdir, hmark, returnedEnv, alloc_deref]
      · have hmark' : (strict && !(w.pathExists (pjoin path ".catkin"))) = false := by
          simpa using hmark
        cases hrs : resolveShell w with
        | none =>
          simp [get_resultspace_environment_refs, hm1, hm2, hdir, hmark', hrs, returnedEnv]
        | some sp =>
          by_cases hsetup : w.pathExists (pjoin path "env.sh") = true
          · cases hexec : w.catkinExec with
            | none =>
              simp [get_resultspace_environment_refs, hm1, hm2, hdir, hmark', hrs, hsetup,
                hexec, returnedEnv, alloc_deref]
            | some ce =>
              cases hsub : w.subproc with
              | ioError cb msg =>
                simp [get_resultspace_environment_refs, hm1, hm2, hdir, hmark', hrs, hsetup,
                  hexec, hsub, returnedEnv]
              | ok chunks =>
                by_cases hl : 0 < ((parse_env_str (subprocLines chunks)).filter notBlacklisted).length
                · simp [get_resultspace_environment_refs, hm1, hm2, hdir, hmark', hrs,
                    hsetup, hexec, hsub, hl, returnedEnv, alloc_deref, deref_cache_update]
                · simp [get_resultspace_environment_refs, hm1, hm2, hdir, hmark', hrs,
                    hsetup, hexec, hsub, hl, returnedEnv, alloc_deref, deref_cache_update]
          · have hsetup' : w.pathExists (pjoin path "env.sh") = false := by simpa using hsetup
            cases quiet <;>
              simp [get_resultspace_environment_refs, hm1, hm2, hdir, hmark', hrs, hsetup',
                returnedEnv, alloc_deref]


theorem cacheHit_after_store (md5hex : List Nat → String) (w : World) (c : Cache)
    (path : String) (e : EnvMap) :
    cacheHit md5hex w path true
      { envCache := dictSet c.envCache path e,
        hooksCache := dictSet c.hooksCache path (computeEnvHooks md5hex w path) } = true := by
  simp [cacheHit, lookup_dictSet_self]

/-!
### Claims
-/

/-- C1 (amended): for a result space with unchanged hook file contents,
if the first `get_resultspace_environment(path, cached=True)` call returns
a non-empty environment, then a second call returns the equal map and
performs no subprocess invocation.  (The unamended claim fails when the
first resolution yields an empty filtered environment: nothing is cached,
so the second call runs the subprocess again — see `c1_counterexample`.) -/
theorem c1_cached_rerun (md5hex : List Nat → String) (w : World) (c : Cache)
    (path : String) (base : EnvMap) (quiet strict : Bool) (e : EnvMap)
    (h1 : (get_resultspace_environment md5hex w c path base quiet true strict).result = .ok e)
    (hne : e ≠ []) :
    (get_resultspace_environment md5hex w
      (get_resultspace_environment md5hex w c path base quiet true strict).cache
      path base quiet true strict).result = .ok e ∧
    (get_resultspace_environment md5hex w
      (get_resultspace_environment md5hex w c path base quiet true strict).cache
      path base quiet true strict).commands = [] := by
  rcases call_cases md5hex w c path base quiet true strict with
    ⟨hhit, hcall⟩ | ⟨hcache, -, hres | ⟨err, hres⟩⟩ |
    ⟨-, ⟨hfne, hres, hcache⟩ | ⟨hfe, hres, hcache⟩ | ⟨hres, -⟩⟩
  · -- first call was a cache hit; the second call is the same hit
    rw [hcall] at h1 ⊢
    rw [call_of_cacheHit md5hex w c path base quiet true strict hhit]
    simpa using h1
  · -- quiet failure: empty map, contradicting hne
    rw [hres] at h1
    exact absurd (PyResult.ok.inj h1).symm hne
  · rw [hres] at h1; cases h1
  · -- fresh successful resolution: the second call hits the new cache entry
    rw [hres] at h1
    have he : e = filteredEnv w := (PyResult.ok.inj h1).symm
    subst he
    rw [hcache]
    rw [call_of_cacheHit md5hex w _ path base quiet true strict
      (cacheHit_after_store md5hex w c path _)]
    simp [lookup_dictSet_self]
  · rw [hres] at h1
    exact absurd (PyResult.ok.inj h1).symm (by simpa [hfe] using hne)
  · rw [hres] at h1; cases h1

/-- C1 witness: on the scenario world the first call resolves a non-empty
environment, and the amended theorem yields that the second call returns
the same map with no subprocess invocation. -/
theorem c1_cached_rerun_witness :
    (get_resultspace_environment asciiDecode wScenario cache0 "/rs" [] false true true).result
      = .ok [("FOO", "bar"), ("BAZ", "qux")] ∧
    ((get_resultspace_environment asciiDecode wScenario
        (get_resultspace_environment asciiDecode wScenario cache0 "/rs" [] false true true).cache
        "/rs" [] false true true).result = .ok [("FOO", "bar"), ("BAZ", "qux")] ∧
      (get_resultspace_environment asciiDecode wScenario
        (get_resultspace_environment asciiDecode wScenario cache0 "/rs" [] false true true).cache
        "/rs" [] false true true).commands = []) :=
  ⟨by decide,
    c1_cached_rerun asciiDecode wScenario cache0 "/rs" [] false true
      [("FOO", "bar"), ("BAZ", "qux")] (by decide) (by decide)⟩

/-- C1 counterexample: when the sourced environment consists solely of
blacklisted keys, the filtered environment is empty and never cached, so
with unchanged hook contents the two successive cached calls return equal
(empty) maps but the second call still invokes the subprocess. -/
theorem c1_counterexample :
    (get_resultspace_environment asciiDecode wBlacklistOnly cache0 "/rs" [] false true true).result
      = .ok [] ∧
    (get_resultspace_environment asciiDecode wBlacklistOnly
      (get_resultspace_environment asciiDecode wBlacklistOnly cache0 "/rs" [] false true true).cache
      "/rs" [] false true true).result = .ok [] ∧
    (get_resultspace_environment asciiDecode wBlacklistOnly
      (get_resultspace_environment asciiDecode wBlacklistOnly cache0 "/rs" [] false true true).cache
      "/rs" [] false true true).commands ≠ [] := by
  decide

/-- C2: with cached=True, the cached environment is returned iff the env
cache holds the path and the fresh fingerprint sequence is list-equal to
the one stored at cache-write time (assuming fingerprints were stored with
the environment, as every store does); on such a hit the cached copy is
returned with no subprocess.  Consequently a changed fingerprint sequence
forces a miss, and modifying one hook file (with differing digest), or
adding/removing a listing entry, changes the sequence. -/
theorem c2_fingerprint_gated_cache (md5hex : List Nat → String) (w wmod : World)
    (path : String) (c : Cache)
    (hWF : (List.lookup path c.envCache).isSome = true →
      (List.lookup path c.hooksCache).isSome = true) :
    ((cacheHit md5hex w path true c = true) ↔
      (∃ env fps, List.lookup path c.envCache = some env ∧
        List.lookup path c.hooksCache = some fps ∧
        computeEnvHooks md5hex w path = fps)) ∧
    (∀ base quiet strict env, cacheHit md5hex w path true c = true →
      List.lookup path c.envCache = some env →
      get_resultspace_environment md5hex w c path base quiet true strict =
        { result := .ok env, cache := c, commands := [], warnings := [] }) ∧
    (List.lookup path c.hooksCache = some (computeEnvHooks md5hex w path) →
      computeEnvHooks md5hex wmod path ≠ computeEnvHooks md5hex w path →
      cacheHit md5hex wmod path true c = false) ∧
    (∀ x, wmod.pathExists (hooksDirPath path) = true →
      w.pathExists (hooksDirPath path) = true →
      wmod.listdir (hooksDirPath path) = w.listdir (hooksDirPath path) →
      x ∈ w.listdir (hooksDirPath path) →
      md5hex (universalNewlines (wmod.readFile (pjoin (hooksDirPath path) x))) ≠
        md5hex (universalNewlines (w.readFile (pjoin (hooksDirPath path) x))) →
      computeEnvHooks md5hex wmod path ≠ computeEnvHooks md5hex w path) ∧
    ((wmod.listdir (hooksDirPath path)).length ≠ (w.listdir (hooksDirPath path)).length →
      wmod.pathExists (hooksDirPath path) = true →
      w.pathExists (hooksDirPath path) = true →
      computeEnvHooks md5hex wmod path ≠ computeEnvHooks md5hex w path) := by
  refine ⟨⟨?_, ?_⟩, ?_, ?_, ?_, ?_⟩
  · intro h
    have h' := h
    simp only [cacheHit, Bool.and_eq_true, beq_iff_eq] at h'
    obtain ⟨⟨-, hsome⟩, hh⟩ := h'
    obtain ⟨env, henv⟩ := Option.isSome_iff_exists.mp hsome
    have hfsome := hWF (by simp [henv])
    obtain ⟨fps, hfps⟩ := Option.isSome_iff_exists.mp hfsome
    exact ⟨env, fps, henv, hfps, by simpa [hfps] using hh⟩
  · rintro ⟨env, fps, henv, hfps, hh⟩
    simp [cacheHit, henv, hfps, hh]
  · intro base quiet strict env hhit henv
    rw [call_of_cacheHit md5hex w c path base quiet true strict hhit, henv]
    rfl
  · intro hstored hne
    simp [cacheHit, hstored, beq_eq_false_iff_ne.mpr hne]
  · intro x hmodex hwex hlist hx hdig
    simp only [computeEnvHooks, hmodex, hwex, if_true, hlist]
    exact map_ne_of_mem_ne hx hdig
  · intro hlens hmodex hwex
    simp only [computeEnvHooks, hmodex, hwex, if_true]
    intro h
    exact hlens (by simpa using congrArg List.length h)

/-- C2 witness: with the CRLF hook world cached, the hit returns the
cached copy; modifying the hook file content or adding a hook file makes
the next cached lookup a miss. -/
theorem c2_fingerprint_gated_cache_witness :
    get_resultspace_environment asciiDecode wHookCRLF cacheHooksStored "/rs" [] false true true =
      { result := .ok [("FOO", "bar")], cache := cacheHooksStored,
        commands := [], warnings := [] } ∧
    cacheHit asciiDecode wHookChanged "/rs" true cacheHooksStored = false ∧
    cacheHit asciiDecode wHookAdded "/rs" true cacheHooksStored = false :=
  ⟨(c2_fingerprint_gated_cache asciiDecode wHookCRLF wHookChanged "/rs" cacheHooksStored
      (by decide)).2.1 [] false true [("FOO", "bar")] (by decide) (by decide),
   (c2_fingerprint_gated_cache asciiDecode wHookCRLF wHookChanged "/rs" cacheHooksStored
      (by decide)).2.2.1 (by decide)
     ((c2_fingerprint_gated_cache asciiDecode wHookCRLF wHookChanged "/rs" cacheHooksStored
        (by decide)).2.2.2.1 "10.sh" (by decide) (by decide) (by decide) (by decide) (by decide)),
   (c2_fingerprint_gated_cache asciiDecode wHookCRLF wHookAdded "/rs" cacheHooksStored
      (by decide)).2.2.1 (by decide)
     ((c2_fingerprint_gated_cache asciiDecode wHookCRLF wHookAdded "/rs" cacheHooksStored
        (by decide)).2.2.2.2 (by decide) (by decide) (by decide))⟩

/-- C3 (amended): on a cache miss, each result-space validation failure —
not a directory; strict with the marker missing; setup script missing
provided the shell is resolvable — returns the empty map when quiet and
raises the corresponding IOError otherwise.  (The unamended claim fails
for the setup-script case when the shell is unresolvable: the always-fatal
shell check precedes the setup check — see `c3_counterexample`.) -/
theorem c3_validation_failures (md5hex : List Nat → String) (w : World)
    (c : Cache) (path : String) (base : EnvMap) (cached strict : Bool)
    (hmiss : cacheHit md5hex w path cached c = false) :
    (w.isdir path = false →
      get_resultspace_environment md5hex w c path base true cached strict =
        { result := .ok [], cache := c, commands := [], warnings := [] } ∧
      get_resultspace_environment md5hex w c path base false cached strict =
        { result := .raise (.ioError (notADirectoryMsg path)), cache := c,
          commands := [], warnings := [] }) ∧
    (w.isdir path = true → strict = true →
      w.pathExists (pjoin path ".catkin") = false →
      get_resultspace_environment md5hex w c path base true cached strict =
        { result := .ok [], cache := c, commands := [], warnings := [] } ∧
      get_resultspace_environment md5hex w c path base false cached strict =
        { result := .raise (.ioError (missingMarkerMsg path)), cache := c,
          commands := [], warnings := [] }) ∧
    (w.isdir path = true →
      (strict = true → w.pathExists (pjoin path ".catkin") = true) →
      resolveShell w ≠ none →
      w.pathExists (pjoin path "env.sh") = false →
      get_resultspace_environment md5hex w c path base true cached strict =
        { result := .ok [], cache := c, commands := [], warnings := [] } ∧
      get_resultspace_environment md5hex w c path base false cached strict =
        { result := .raise (.ioError (missingSetupMsg path (pjoin path "env.sh"))),
          cache := c, commands := [], warnings := [] }) := by
  refine ⟨?_, ?_, ?_⟩
  · intro hdir
    constructor <;> simp [get_resultspace_environment, hmiss, hdir]
  · intro hdir hstrict hcat
    have hmark : (strict && !(w.pathExists (pjoin path ".catkin"))) = true := by
      simp [hstrict, hcat]
    constructor <;> simp [get_resultspace_environment, hmiss, hdir, hmark]
  · intro hdir hmarker hshell hsetup
    have hmark : (strict && !(w.pathExists (pjoin path ".catkin"))) = false := by
      cases strict with
      | false => rfl
      | true => simp [hmarker rfl]
    obtain ⟨sp, hsp⟩ := Option.ne_none_iff_exists'.mp hshell
    constructor <;> simp [get_resultspace_environment, hmiss, hdir, hmark, hsp, hsetup]

/-- C3 witness: a deleted result space, on an empty cache, yields the
empty map with quiet and the NotADirectory IOError without. -/
theorem c3_validation_failures_witness :
    get_resultspace_environment asciiDecode wGone cache0 "/rs" [] true false true =
      { result := .ok [], cache := cache0, commands := [], warnings := [] } ∧
    get_resultspace_environment asciiDecode wGone cache0 "/rs" [] false false true =
      { result := .raise (.ioError (notADirectoryMsg "/rs")), cache := cache0,
        commands := [], warnings := [] } :=
  (c3_validation_failures asciiDecode wGone cache0 "/rs" [] false true (by decide)).1
    (by decide)

/-- C3 counterexample: with `env.sh` missing but `SHELL` unset and
`/bin/bash` absent, the call with quiet=True raises the shell RuntimeError
instead of returning the empty map the claim promises. -/
theorem c3_counterexample :
    wNoShell.pathExists (pjoin "/rs" "env.sh") = false ∧
    (get_resultspace_environment asciiDecode wNoShell cache0 "/rs" [] true false true).result
      = .raise (.runtimeError (shellNotFoundMsg DEFAULT_SHELL)) := by
  decide

/-- C4: a returned environment never contains the blacklisted keys `_` and
`PWD` (given the invariant that no cached environment does, which the
empty initial cache satisfies and every call preserves), and on the
scenario output `FOO=bar\nBAZ=qux\n_=ignored\nPWD=/tmp\n` the returned
map is exactly `{FOO: bar, BAZ: qux}`. -/
theorem c4_blacklist_filtering :
    (∀ (md5hex : List Nat → String) (w : World) (c : Cache) (path : String)
      (base : EnvMap) (quiet cached strict : Bool) (env : EnvMap),
      CacheClean c →
      (get_resultspace_environment md5hex w c path base quiet cached strict).result = .ok env →
      ∀ kv ∈ env, kv.1 ≠ "_" ∧ kv.1 ≠ "PWD") ∧
    (∀ (md5hex : List Nat → String) (w : World) (c : Cache) (path : String)
      (base : EnvMap) (quiet cached strict : Bool),
      CacheClean c →
      CacheClean (get_resultspace_environment md5hex w c path base quiet cached strict).cache) ∧
    (get_resultspace_environment asciiDecode wScenario cache0 "/rs" [] false true true).result
      = .ok [("FOO", "bar"), ("BAZ", "qux")] := by
  refine ⟨?_, ?_, by decide⟩
  · intro md5hex w c path base quiet cached strict env hclean hres kv hkv
    rcases call_cases md5hex w c path base quiet cached strict with
      ⟨hhit, hcall⟩ | ⟨-, -, hok | ⟨err, hraise⟩⟩ |
      ⟨-, ⟨-, hok, -⟩ | ⟨-, hok, -⟩ | ⟨hraise, -⟩⟩
    · rw [hcall] at hres
      have hsome : (List.lookup path c.envCache).isSome = true := by
        have h' := hhit
        simp only [cacheHit, Bool.and_eq_true] at h'
        exact h'.1.2
      obtain ⟨e, he⟩ := Option.isSome_iff_exists.mp hsome
      have : env = e := by
        have := PyResult.ok.inj hres
        simp [he] at this
        exact this.symm
      exact hclean path e he kv (this ▸ hkv)
    · rw [hok] at hres
      have : env = [] := (PyResult.ok.inj hres).symm
      subst this
      cases hkv
    · rw [hraise] at hres; cases hres
    · rw [hok] at hres
      have : env = filteredEnv w := (PyResult.ok.inj hres).symm
      subst this
      exact filteredEnv_clean w kv hkv
    · rw [hok] at hres
      have : env = [] := (PyResult.ok.inj hres).symm
      subst this
      cases hkv
    · rw [hraise] at hres; cases hres
  · intro md5hex w c path base quiet cached strict hclean
    rcases call_cases md5hex w c path base quiet cached strict with
      ⟨-, hcall⟩ | ⟨hcache, -, -⟩ |
      ⟨-, ⟨-, -, hcache⟩ | ⟨-, -, hcache⟩ | ⟨-, hcache⟩⟩
    · rw [hcall]; exact hclean
    · rw [hcache]; exact hclean
    · rw [hcache]
      intro p env hp kv hkv
      rcases lookup_dictSet_cases _ _ _ _ _ hp with ⟨-, henv⟩ | hold
      · exact filteredEnv_clean w kv (henv ▸ hkv)
      · exact hclean p env hold kv hkv
    · rw [hcache]; exact hclean
    · rw [hcache]; exact hclean

/-- C4 witness: the empty starting cache is clean, and the first binding
of the scenario result respects the blacklist. -/
theorem c4_blacklist_filtering_witness :
    ("FOO", "bar").1 ≠ "_" ∧ ("FOO", "bar").1 ≠ "PWD" :=
  c4_blacklist_filtering.1 asciiDecode wScenario cache0 "/rs" [] false true true
    [("FOO", "bar"), ("BAZ", "qux")]
    (by intro p env h; simp [cache0] at h) (by decide) ("FOO", "bar") (by decide)

/-- C5: errors about the resolver environment ignore `quiet` (which is
universally quantified here): with SHELL unset and the default shell
missing the call raises RuntimeError, and with the catkin executable
unresolvable it warns and returns the empty map, leaving the cache
untouched and running nothing. -/
theorem c5_resolver_errors_ignore_quiet (md5hex : List Nat → String)
    (w : World) (c : Cache) (path : String) (base : EnvMap)
    (quiet cached strict : Bool)
    (hmiss : cacheHit md5hex w path cached c = false)
    (hdir : w.isdir path = true)
    (hmarker : strict = true → w.pathExists (pjoin path ".catkin") = true) :
    (w.shellVar = none → w.isfile DEFAULT_SHELL = false →
      get_resultspace_environment md5hex w c path base quiet cached strict =
        { result := .raise (.runtimeError (shellNotFoundMsg DEFAULT_SHELL)),
          cache := c, commands := [], warnings := [] }) ∧
    (resolveShell w ≠ none → w.pathExists (pjoin path "env.sh") = true →
      w.catkinExec = none →
      get_resultspace_environment md5hex w c path base quiet cached strict =
        { result := .ok [], cache := c, commands := [],
          warnings := [toolWarning] }) := by
  have hmark : (strict && !(w.pathExists (pjoin path ".catkin"))) = false := by
    cases strict with
    | false => rfl
    | true => simp [hmarker rfl]
  constructor
  · intro hsv hbash
    have hrs : resolveShell w = none := by simp [resolveShell, hsv, hbash]
    simp [get_resultspace_environment, hmiss, hdir, hmark, hrs]
  · intro hshell hsetup hexec
    obtain ⟨sp, hsp⟩ := Option.ne_none_iff_exists'.mp hshell
    simp [get_resultspace_environment, hmiss, hdir, hmark, hsp, hsetup, hexec]

/-- C5 witness: both resolver-environment failures at quiet=true — the
missing shell raises, the missing tool warns and returns the empty map. -/
theorem c5_resolver_errors_ignore_quiet_witness :
    get_resultspace_environment asciiDecode wNoShell cache0 "/rs" [] true false true =
      { result := .raise (.runtimeError (shellNotFoundMsg DEFAULT_SHELL)),
        cache := cache0, commands := [], warnings := [] } ∧
    get_resultspace_environment asciiDecode wNoTool cache0 "/rs" [] true false true =
      { result := .ok [], cache := cache0, commands := [],
        warnings := [toolWarning] } :=
  ⟨(c5_resolver_errors_ignore_quiet asciiDecode wNoShell cache0 "/rs" [] true false true
      (by decide) (by decide) (by decide)).1 (by decide) (by decide),
   (c5_resolver_errors_ignore_quiet asciiDecode wNoTool cache0 "/rs" [] true false true
      (by decide) (by decide) (by decide)).2 (by decide) (by decide) (by decide)⟩

/-- C6 (code bug): when execution raises IOError, the handler at lines
167-170 prints to `sys.stderr`, but the module never imports `sys`, so the
call raises NameError instead of warning and returning the partial (empty)
environment: no warning is emitted and the cache is untouched. -/
theorem c6_ioerror_raises_nameerror :
    wIOFail.subproc = .ioError [] "broken pipe" ∧
    (get_resultspace_environment asciiDecode wIOFail cache0 "/rs" [] false true true).result
      = .raise (.nameError "sys") ∧
    (get_resultspace_environment asciiDecode wIOFail cache0 "/rs" [] false true true).warnings
      = [] ∧
    (get_resultspace_environment asciiDecode wIOFail cache0 "/rs" [] false true true).cache
      = cache0 := by
  decide

/-- C7: after a call that reaches the subprocess and whose execution
completes, the cache is updated iff the filtered environment is non-empty
— stored together with the fingerprints regardless of the `cached` flag —
and an empty environment produces the data-integrity warning and leaves
the cache unchanged. -/
theorem c7_cache_store_iff_nonempty (md5hex : List Nat → String) (w : World)
    (c : Cache) (path : String) (base : EnvMap) (quiet cached strict : Bool)
    (chunks : List Chunk) (ce : String)
    (hmiss : cacheHit md5hex w path cached c = false)
    (hdir : w.isdir path = true)
    (hmarker : strict = true → w.pathExists (pjoin path ".catkin") = true)
    (hshell : resolveShell w ≠ none)
    (hsetup : w.pathExists (pjoin path "env.sh") = true)
    (hexec : w.catkinExec = some ce)
    (hsub : w.subproc = .ok chunks) :
    (get_resultspace_environment md5hex w c path base quiet cached strict).commands ≠ [] ∧
    (filteredEnv w ≠ [] →
      (get_resultspace_environment md5hex w c path base quiet cached strict).cache =
        { envCache := dictSet c.envCache path (filteredEnv w),
          hooksCache := dictSet c.hooksCache path (computeEnvHooks md5hex w path) } ∧
      (get_resultspace_environment md5hex w c path base quiet cached strict).result =
        .ok (filteredEnv w) ∧
      (get_resultspace_environment md5hex w c path base quiet cached strict).warnings = []) ∧
    (filteredEnv w = [] →
      (get_resultspace_environment md5hex w c path base quiet cached strict).cache = c ∧
      (get_resultspace_environment md5hex w c path base quiet cached strict).warnings =
        [emptyEnvWarning (pjoin path "env.sh")] ∧
      (get_resultspace_environment md5hex w c path base quiet cached strict).result =
        .ok []) := by
  have hmark : (strict && !(w.pathExists (pjoin path ".catkin"))) = false := by
    cases strict with
    | false => rfl
    | true => simp [hmarker rfl]
  obtain ⟨sp, hsp⟩ := Option.ne_none_iff_exists'.mp hshell
  have heq : filteredEnv w = (parse_env_str (subprocLines chunks)).filter notBlacklisted := by
    simp [filteredEnv, hsub]
  by_cases he : filteredEnv w = []
  · have hlen : (filteredEnv w).length = 0 := by rw [he]; rfl
    refine ⟨?_, fun hne => absurd he hne, fun _ => ⟨?_, ?_, ?_⟩⟩ <;>
      simp [get_resultspace_environment, hmiss, hdir, hmark, hsp, hsetup, hexec, hsub,
        ← heq, hlen, he]
  · have hlen : 0 < (filteredEnv w).length := List.length_pos.mpr he
    refine ⟨?_, fun _ => ⟨?_, ?_, ?_⟩, fun hee => absurd hee he⟩ <;>
      simp [get_resultspace_environment, hmiss, hdir, hmark, hsp, hsetup, hexec, hsub,
        ← heq, hlen]

/-- C7 witness: the scenario run stores its non-empty filtered environment
and the fingerprints, having invoked the subprocess. -/
theorem c7_cache_store_iff_nonempty_witness :
    (get_resultspace_environment asciiDecode wScenario cache0 "/rs" [] false true true).commands
      ≠ [] ∧
    ((get_resultspace_environment asciiDecode wScenario cache0 "/rs" [] false true true).cache =
      { envCache := dictSet cache0.envCache "/rs" (filteredEnv wScenario),
        hooksCache := dictSet cache0.hooksCache "/rs"
          (computeEnvHooks asciiDecode wScenario "/rs") } ∧
      (get_resultspace_environment asciiDecode wScenario cache0 "/rs" [] false true true).result =
        .ok (filteredEnv wScenario) ∧
      (get_resultspace_environment asciiDecode wScenario cache0 "/rs" [] false true true).warnings
        = []) :=
  ⟨(c7_cache_store_iff_nonempty asciiDecode wScenario cache0 "/rs" [] false true true
      [.str "FOO=bar\nBAZ=qux\n_=ignored\nPWD=/tmp\n"] "/usr/bin/catkin"
      (by decide) (by decide) (by decide) (by decide) (by decide) (by decide) (by decide)).1,
   (c7_cache_store_iff_nonempty asciiDecode wScenario cache0 "/rs" [] false true true
      [.str "FOO=bar\nBAZ=qux\n_=ignored\nPWD=/tmp\n"] "/usr/bin/catkin"
      (by decide) (by decide) (by decide) (by decide) (by decide) (by decide) (by decide)).2.1
     (by decide)⟩

/-- C8 (amended): a hook fingerprint hashes the file content as read in
text mode — universal-newline translation, then UTF-8 re-encoding — so the
fingerprint sequence depends only on the text-mode content of the listed
files, not on their raw bytes.  (The unamended claim fails: two files
whose raw bytes differ only in newline encoding fingerprint identically —
see `c8_counterexample`.) -/
theorem c8_fingerprint_text_mode (md5hex : List Nat → String) (w wmod : World)
    (path : String)
    (hex : wmod.pathExists (hooksDirPath path) = w.pathExists (hooksDirPath path))
    (hlist : wmod.listdir (hooksDirPath path) = w.listdir (hooksDirPath path))
    (htext : ∀ x ∈ w.listdir (hooksDirPath path),
      universalNewlines (wmod.readFile (pjoin (hooksDirPath path) x)) =
        universalNewlines (w.readFile (pjoin (hooksDirPath path) x))) :
    computeEnvHooks md5hex wmod path = computeEnvHooks md5hex w path := by
  unfold computeEnvHooks
  rw [hex, hlist]
  cases hpe : w.pathExists (hooksDirPath path) with
  | false => simp
  | true =>
    simp only [if_true]
    exact List.map_eq_map_iff.mpr (fun x hx => by rw [htext x hx])

/-- C8 witness: the LF world has the same text-mode hook contents as the
CRLF world, hence the same fingerprints. -/
theorem c8_fingerprint_text_mode_witness :
    computeEnvHooks asciiDecode wHookLF "/rs" = computeEnvHooks asciiDecode wHookCRLF "/rs" :=
  c8_fingerprint_text_mode asciiDecode wHookCRLF wHookLF "/rs" (by decide) (by decide)
    (by decide)

/-- C8 counterexample: the CRLF and LF hook files have different raw byte
contents — distinguished by the (injective) hash itself — yet their
fingerprints coincide, because line 65 reads the file in text mode; so the
fingerprint is not a hash of the raw bytes and is not independent of the
reading mode. -/
theorem c8_counterexample :
    wHookCRLF.readFile (pjoin hookDir "10.sh") ≠ wHookLF.readFile (pjoin hookDir "10.sh") ∧
    asciiDecode (wHookCRLF.readFile (pjoin hookDir "10.sh")) ≠
      asciiDecode (wHookLF.readFile (pjoin hookDir "10.sh")) ∧
    universalNewlines (wHookCRLF.readFile (pjoin hookDir "10.sh")) ≠
      wHookCRLF.readFile (pjoin hookDir "10.sh") ∧
    computeEnvHooks asciiDecode wHookCRLF "/rs" = computeEnvHooks asciiDecode wHookLF "/rs" := by
  decide

/-- C9: the returned map is an independent copy.  In the heap rendering,
whenever a call returns a reference `r` (cache hit or fresh resolution),
`r` differs from every reference held by the cache, overwriting the dict
at `r` leaves every cached environment unchanged, and a subsequent call on
the mutated state returns the same environment as without the mutation. -/
theorem c9_returned_copy_independent (md5hex : List Nat → String) (w : World)
    (path : String) (base : EnvMap) (quiet cached strict : Bool) (s : HState)
    (hWF : HWF s) (r : Nat)
    (hok : (get_resultspace_environment_refs md5hex w s path base quiet cached strict).result
      = .ok r) :
    (∀ p ref, List.lookup p
      (get_resultspace_environment_refs md5hex w s path base quiet cached strict).state.envCacheR
      = some ref → ref ≠ r) ∧
    (∀ v p ref, List.lookup p
      (get_resultspace_environment_refs md5hex w s path base quiet cached strict).state.envCacheR
      = some ref →
      (mutateRef (get_resultspace_environment_refs md5hex w s path base quiet cached
        strict).state r v).deref ref =
      (get_resultspace_environment_refs md5hex w s path base quiet cached strict).state.deref ref) ∧
    (∀ v, returnedEnv (get_resultspace_environment_refs md5hex w
        (mutateRef (get_resultspace_environment_refs md5hex w s path base quiet cached
          strict).state r v) path base quiet cached strict) =
      returnedEnv (get_resultspace_environment_refs md5hex w
        (get_resultspace_environment_refs md5hex w s path base quiet cached strict).state
        path base quiet cached strict)) := by
  have hfresh := refs_cache_fresh md5hex w path base quiet cached strict s hWF r hok
  refine ⟨fun p ref h => Nat.ne_of_lt (hfresh p ref h),
    fun v p ref h => deref_mutate_ne _ _ _ _ (Nat.ne_of_lt (hfresh p ref h)),
    fun v => ?_⟩
  exact returnedEnv_eq md5hex w _ _ path base quiet cached strict rfl rfl
    (fun ref h => deref_mutate_ne _ _ _ _ (Nat.ne_of_lt (hfresh path ref h)))

/-- C9 witness: after the scenario resolution (returned reference 2,
cached reference 1), clobbering the returned dict neither changes the
cached environment nor the environment a subsequent call returns. -/
theorem c9_returned_copy_independent_witness :
    (mutateRef hOut1.state 2 [("HACK", "1")]).deref 1 = hOut1.state.deref 1 ∧
    returnedEnv (get_resultspace_environment_refs asciiDecode wScenario
        (mutateRef hOut1.state 2 [("HACK", "1")]) "/rs" [] false true true) =
      returnedEnv (get_resultspace_environment_refs asciiDecode wScenario
        hOut1.state "/rs" [] false true true) :=
  ⟨(c9_returned_copy_independent asciiDecode wScenario "/rs" [] false true true hstate0
      (by intro p r h; simp [hstate0] at h) 2 (by decide)).2.1 [("HACK", "1")] "/rs" 1
      (by decide),
   (c9_returned_copy_independent asciiDecode wScenario "/rs" [] false true true hstate0
      (by intro p r h; simp [hstate0] at h) 2 (by decide)).2.2 [("HACK", "1")]⟩

/-- C10: when cached=True and the cache holds the path with fingerprints
matching the current ones, the cached environment is returned with no
subprocess and no exception, skipping all validation — even though the
directory, marker file and setup script are all gone, with strict and
quiet arbitrary. -/
theorem c10_cache_hit_skips_validation (md5hex : List Nat → String)
    (w : World) (c : Cache) (path : String) (base : EnvMap)
    (quiet strict : Bool) (e : EnvMap)
    (henv : List.lookup path c.envCache = some e)
    (hfp : computeEnvHooks md5hex w path = (List.lookup path c.hooksCache).getD [])
    (hdir : w.isdir path = false)
    (hmarker : w.pathExists (pjoin path ".catkin") = false)
    (hsetup : w.pathExists (pjoin path "env.sh") = false) :
    get_resultspace_environment md5hex w c path base quiet true strict =
      { result := .ok e, cache := c, commands := [], warnings := [] } := by
  have hhit : cacheHit md5hex w path true c = true := by
    simp [cacheHit, henv, hfp]
  rw [call_of_cacheHit md5hex w c path base quiet true strict hhit, henv]
  rfl

/-- C10 witness: the fully deleted result space still hits the seeded
cache with strict=True and quiet=False. -/
theorem c10_cache_hit_skips_validation_witness :
    get_resultspace_environment asciiDecode wGone cacheSeeded "/rs" [] false true true =
      { result := .ok [("A", "1")], cache := cacheSeeded, commands := [],
        warnings := [] } :=
  c10_cache_hit_skips_validation asciiDecode wGone cacheSeeded "/rs" [] false true
    [("A", "1")] (by decide) (by decide) (by decide) (by decide) (by decide)

end CatkinTools
